import Mathlib

/-!
Verification of the `pyldz` image-composition engine
(`src/pyldz/image_generator.py`, `src/pyldz/face_centering.py`).

The Python code is shallowly embedded: pure arithmetic and control flow
(crop geometry, font autoscaling, greedy word wrap, cache file naming,
talk-count dispatch, error wrapping) are translated directly; external
raster operations (PIL decode/resize/crop, text rendering, the DeepFace
detection backend, font glyph metrics) are abstracted as symbolic image
values and oracle function parameters, since their pixel contents live
outside the program under verification.  Python `int` is embedded as `Int`
(arbitrary precision), Python floor division `//` as `Int.fdiv`.

The `Meetup`/`Speaker` value objects consumed by `image_generator.py`
(`is_to_be_announced`, `has_single_talk`, `has_two_talks`, `avatar` as a
named byte file) are not present in the repository's `models.py` (a stale
model version); the fields and predicates the generator relies on are
modelled from the spec where marked.
-/

namespace PyLdz

/-! ## Symbolic images

A PIL `Image` is represented symbolically: the embedding records which
operations produced it, not its pixel contents.  `decoded b` stands for
`Image.open(BytesIO(b)).convert("RGBA")` (decoding is abstracted as total;
a decode failure would be wrapped into `ImageGenerationError` by the code
paths modelled here, and no claim depends on it); `resize` and `canvas`
record the pixel dimensions PIL guarantees for their results; `canvas`
additionally records the sequence of speaker avatars composited onto the
blank canvas, the only parts of the raster that depend on mutable state
(all text/decoration drawing is a fixed function of the immutable
arguments).  Saving to and loading from a cache file is modelled as
storing the symbolic image itself (a PNG save/open round trip reproduces
the pixel data, and the PNG encoder is deterministic). -/
inductive Img where
  | decoded (bytes : List Nat)
  | resize (i : Img) (w h : Nat)
  | canvas (w h : Nat) (parts : List Img)

/-- Pixel dimensions of a symbolic image, when its constructors determine
them (`Image.resize` and `Image.new` fix the size; the size of a decoded
byte stream is not represented). -/
def Img.size : Img → Option (Nat × Nat)
  | .decoded _ => none
  | .resize _ w h => some (w, h)
  | .canvas w h _ => some (w, h)

/-! ## Face Locator (`face_centering.py`) -/

/-- Record `_Box` from `face_centering.py`: a detected face rectangle in source
pixel coordinates (converted from the backend's output by `_to_box`). -/
structure Box where
  x : Int
  y : Int
  w : Int
  h : Int
  deriving DecidableEq, Repr

/-- Property `_Box.center`: `(self.x + self.w // 2, self.y + self.h // 2)`.
Python `//` is floor division, embedded as `Int.fdiv`. -/
def Box.center (b : Box) : Int × Int :=
  (b.x + b.w.fdiv 2, b.y + b.h.fdiv 2)

/-- Function `_compute_square_crop(box, img_w, img_h)`.  The source computes
`side = int(max(box.w, box.h) * 2.0)`; an integer times the float `2.0`
followed by `int()` is exactly `2 * max(box.w, box.h)` (doubling only
increments the binary exponent, so the product is exact whenever the
operand converts exactly), embedded as such. -/
def compute_square_crop (box : Box) (imgW imgH : Int) : Int × Int × Int × Int :=
  let cx := box.center.1
  let cy := box.center.2
  let side := 2 * max box.w box.h
  let side := max 1 side
  let half := side.fdiv 2
  let left := max 0 (cx - half)
  let top := max 0 (cy - half)
  let right := min imgW (left + side)
  let bottom := min imgH (top + side)
  -- Adjust if we hit bounds to keep square
  let width := right - left
  let height := bottom - top
  let side := min width height
  let right := left + side
  let bottom := top + side
  (left, top, right, bottom)

/-- The messages carried by `FaceDetectionError` raised in
`detect_and_center_square`. -/
inductive FaceDetectionError where
  | noFace            -- "No face detected"
  | moreThanOneFace   -- "More than one face detected"
  | invalidFaceBox    -- "Invalid face box"
  deriving DecidableEq, Repr

/-- Function `detect_and_center_square(image)`.  The DeepFace backend's output
(after `_to_box` conversion) enters as the list `faces`; the source image
enters as its dimensions, and `image.crop(crop)` is represented by the
returned crop rectangle. -/
def detect_and_center_square (faces : List Box) (imgW imgH : Int) :
    Except FaceDetectionError (Int × Int × Int × Int) :=
  match faces with
  | [] => .error .noFace
  | [box] =>
      if box.w ≤ 0 ∨ box.h ≤ 0 then
        .error .invalidFaceBox
      else
        .ok (compute_square_crop box imgW imgH)
  | _ :: _ :: _ => .error .moreThanOneFace

/-! ## Text Metrics Engine (`image_generator.py`)

Font glyph metrics are abstracted: a measuring oracle maps a string to the
width `draw.textbbox((0, 0), text, font=font)[2]` would report for the
fixed font under discussion, and a font object is identified with its
integer pixel size (the font path is fixed per call site). -/

/-- Python `text.split()`: split at every whitespace character,
discarding the empty pieces (so runs of whitespace count as one
separator and no empty words are produced). -/
def py_split (text : String) : List String :=
  ((text.data.splitOnP fun c => c.isWhitespace).map String.mk).filter
    (fun w => w ≠ "")

/-- Python `" ".join(words)`. -/
def join_words : List String → String
  | [] => ""
  | [w] => w
  | w :: ws => w ++ " " ++ join_words ws

/-- The loop of `_wrap_unbounded`, over the remaining words, the
accumulated `lines`, and the current line `cur`. -/
def wrap_loop (width : String → Int) (maxW : Int) :
    List String → List String → List String → List String
  | [], lines, cur =>
      -- if cur: lines.append(" ".join(cur))
      lines ++ (if cur.isEmpty then [] else [join_words cur])
  | w :: ws, lines, cur =>
      let test := join_words (cur ++ [w])
      if width test ≤ maxW then
        wrap_loop width maxW ws lines (cur ++ [w])
      else
        wrap_loop width maxW ws
          (lines ++ (if cur.isEmpty then [] else [join_words cur])) [w]

/-- Function `_wrap_unbounded(draw, text, font, max_w)` with the font's measuring
function abstracted as `width`. -/
def wrap_unbounded (width : String → Int) (text : String) (maxW : Int) :
    List String :=
  wrap_loop width maxW (py_split text) [] []

/-- Function `_autoscale_font(draw, text, font_path, start, max_width)`.  A font is
identified with its size; `width s` is the rendered width of the fixed
`text` at size `s`.  Returns the size of the font the source returns. -/
def autoscale_font (width : Int → Int) (start : Int) (maxW : Int) : Int :=
  if 40 ≤ start then
    if width start ≤ maxW then start
    else autoscale_font width (start - 2) maxW
  else 40
termination_by (start - 38).toNat
decreasing_by
  simp_wf
  omega

/-! ## Data model

`Speaker.avatar` is a named byte file (`File` in the tests'
`pyldz.models`, absent from the `models.py` in the tree). -/

/-- Modelled from the spec: the avatar image value object, "raw bytes +
original filename/extension" (the `File` class is missing from `src`). -/
structure AvatarFile where
  name : String
  content : List Nat
  deriving DecidableEq, Repr

/-- Modelled from the spec: the "original filename/extension" of an
avatar file — the part of the name after the last dot. -/
def AvatarFile.fileExt (f : AvatarFile) : String :=
  String.mk (((f.name.data.splitOnP fun c => c = '.').getLast?).getD [])

/-- The speaker fields `image_generator.py` reads: `id`, `name`,
`avatar.content`. -/
structure Speaker where
  id : String
  name : String
  avatar : AvatarFile
  deriving DecidableEq, Repr

/-- The talk fields `image_generator.py` reads: `speaker_id`, `title`. -/
structure Talk where
  speaker_id : String
  title : String
  deriving DecidableEq, Repr

/-- The meetup fields `image_generator.py` reads. -/
structure Meetup where
  meetup_id : String
  talks : List Talk
  deriving DecidableEq, Repr

/-- Modelled from the spec: `Meetup.is_to_be_announced` (missing from
`src`'s `models.py`) — the zero-talk "to be announced" case. -/
def Meetup.is_to_be_announced (m : Meetup) : Bool := m.talks.length = 0

/-- Modelled from the spec: `Meetup.has_single_talk` (missing from
`src`'s `models.py`) — exactly one talk. -/
def Meetup.has_single_talk (m : Meetup) : Bool := m.talks.length = 1

/-- Modelled from the spec: `Meetup.has_two_talks` (missing from `src`'s
`models.py`) — exactly two talks. -/
def Meetup.has_two_talks (m : Meetup) : Bool := m.talks.length = 2

/-! ## Asset & Avatar Cache (`MeetupImageGenerator._avatar`) -/

/-- The avatar cache directory: an association from file names to stored
images, newest write first. -/
def Cache := List (String × Img)

/-- Reading a cache file: `path.exists()` / `Image.open(path)`. -/
def getFile (st : Cache) (name : String) : Option Img :=
  List.lookup name st

/-- Writing a cache file: `img.save(path, "PNG")`. -/
def setFile (st : Cache) (name : String) (i : Img) : Cache :=
  (name, i) :: st

/-- Source line `raw = self.cache_dir / f"{speaker.id}_original.png"` — note the fixed
`.png` suffix in the source, independent of the avatar's own extension. -/
def rawName (id : String) : String := id ++ "_original.png"

/-- Source line `processed = self.cache_dir / f"{speaker.id}.png"`. -/
def processedName (id : String) : String := id ++ ".png"

/-- Method `MeetupImageGenerator._avatar(speaker, size)`.  The face-centering
call `face_centering.detect_and_center_square(original)` is abstracted as
the oracle `fc`; `fc i = none` models it raising `FaceDetectionError`
(which the source catches — the function never re-raises it), and
`fc i = some c` models it returning the centered crop `c`.  File I/O and
decode failures (wrapped into `ImageGenerationError` by the source's outer
`except`) are not modelled; on the paths below the source cannot raise. -/
def avatar (fc : Img → Option Img) (sp : Speaker) (w h : Nat) (st : Cache) :
    Img × Cache :=
  let raw := rawName sp.id
  let processed := processedName sp.id
  match getFile st processed with
  | some img => (img.resize w h, st)
  | none =>
      let p : Img × Cache :=
        match getFile st raw with
        | some original => (original, st)
        | none =>
            let original := Img.decoded sp.avatar.content
            (original, setFile st raw original)
      let original := p.1
      let st1 := p.2
      match fc original with
      | some centered => (centered.resize w h, setFile st1 processed centered)
      | none => (original.resize w h, setFile st1 processed original)

/-! ## Image Generation Facade (`generate_featured_image`) -/

/-- The canvas dimension table of `MeetupImageGenerator._canvas`. -/
def canvas_size (aspect : String) : Nat × Nat :=
  if aspect = "4x5" then (1080, 1350)
  else if aspect = "1x1" then (1080, 1080)
  else (1920, 1080)

/-- Entry `single_avatar` from `_aspect_preset` (330 in every preset, and the
unknown-tag fallback returns the `"16x9"` preset). -/
def preset_single_avatar (aspect : String) : Nat :=
  if aspect = "16x9" then 330
  else if aspect = "4x5" then 330
  else if aspect = "1x1" then 330
  else 330

/-- Entry `duo_avatar` from `_aspect_preset` (the unknown-tag fallback returns
the `"16x9"` preset). -/
def preset_duo_avatar (aspect : String) : Nat :=
  if aspect = "16x9" then 280
  else if aspect = "4x5" then 288
  else if aspect = "1x1" then 288
  else 280

/-- The exceptions that can escape the `try` block of
`generate_featured_image` in this model: `StopIteration` from `next(...)`
in `_find_speaker`, and the explicit
`Exception("Unsupported number of talks")`. -/
inductive PyException where
  | stopIteration
  | unsupportedTalks
  deriving DecidableEq, Repr

/-- Rendering `str(e)` for the exceptions above (`str(StopIteration())` is `""`). -/
def PyException.message : PyException → String
  | .stopIteration => ""
  | .unsupportedTalks => "Unsupported number of talks"

/-- The wrapped error message built by the facade's `except`
clause: `f"Failed to generate image for meetup {meetup.meetup_id}: {e}"`. -/
def image_generation_error (meetupId : String) (e : PyException) : String :=
  "Failed to generate image for meetup " ++ meetupId ++ ": " ++ e.message

/-- Method `_find_speaker(speakers, speaker_id)` is
`next(s for s in speakers if s.id == speaker_id)`: the first match, or a
`StopIteration` (here `none`) if absent. -/
def find_speaker (speakers : List Speaker) (sid : String) : Option Speaker :=
  speakers.find? (fun s => s.id == sid)

/-- Method `generate_featured_image(meetup, speakers, output_path, ...)`.

The talk-count dispatch `is_to_be_announced / has_single_talk /
has_two_talks / raise` is written as the equivalent exhaustive match on
the talk list.  Header, date, separator, footer and text drawing are
total functions of the immutable `meetup`/`language`/`options` arguments
and fixed assets, so they are absorbed into the symbolic canvas; the
composited avatar rasters — the only pixel content depending on the
mutable cache — are recorded in order.  `.error` carries the
`ImageGenerationError` message; `.ok` carries the saved PNG canvas and
the cache state after the call. -/
def generate_featured_image (fc : Img → Option Img) (meetup : Meetup)
    (speakers : List Speaker) (aspect : String) (st : Cache) :
    Except String (Img × Cache) :=
  let wh := canvas_size aspect
  match meetup.talks with
  | [] =>
      -- self._layout_tba: no avatar, only the fixed TBA badge
      .ok (Img.canvas wh.1 wh.2 [], st)
  | [t] =>
      match find_speaker speakers t.speaker_id with
      | none => .error (image_generation_error meetup.meetup_id .stopIteration)
      | some sp =>
          let size := preset_single_avatar aspect
          let r := avatar fc sp size size st
          .ok (Img.canvas wh.1 wh.2 [r.1], r.2)
  | [t1, t2] =>
      match find_speaker speakers t1.speaker_id with
      | none => .error (image_generation_error meetup.meetup_id .stopIteration)
      | some sp1 =>
          match find_speaker speakers t2.speaker_id with
          | none => .error (image_generation_error meetup.meetup_id .stopIteration)
          | some sp2 =>
              let size := preset_duo_avatar aspect
              let r1 := avatar fc sp1 size size st
              let r2 := avatar fc sp2 size size r1.2
              .ok (Img.canvas wh.1 wh.2 [r1.1, r2.1], r2.2)
  | _ :: _ :: _ :: _ =>
      .error (image_generation_error meetup.meetup_id .unsupportedTalks)

/-- Two sequential calls of `generate_featured_image` with identical
arguments, the second seeing the cache state left by the first; `some`
holds the two output canvases when both succeed. -/
def generate_twice (fc : Img → Option Img) (meetup : Meetup)
    (speakers : List Speaker) (aspect : String) (st : Cache) :
    Option (Img × Img) :=
  match generate_featured_image fc meetup speakers aspect st with
  | .error _ => none
  | .ok r1 =>
      match generate_featured_image fc meetup speakers aspect r1.2 with
      | .error _ => none
      | .ok r2 => some (r1.1, r2.1)

/-- Modelled from the spec: the raw-original cache file name as the spec
states it, `{id}_original.{ext}` with the avatar's own file extension —
to be compared against `rawName`, the name the source actually uses. -/
def spec_raw_cache_name (sp : Speaker) : String :=
  sp.id ++ "_original." ++ sp.avatar.fileExt

/-- Proof-support predicate for the wrap invariant: a finished output
line either fits in `maxW` or is a single source word (a member of `S`)
wider than `maxW`, and is never empty. -/
def goodLine (width : String → Int) (maxW : Int) (S : List String)
    (l : String) : Prop :=
  (width l ≤ maxW ∨ (l ∈ S ∧ maxW < width l)) ∧ l ≠ ""

/-- Proof-support predicate: the loop invariant of `wrap_loop` on the
current line `cur` — its words are nonempty, and it is empty, or its join
was measured to fit when its last word was accepted, or it is a single
(possibly oversized) word just placed after a rejection. -/
def curInv (width : String → Int) (maxW : Int) (S : List String)
    (cur : List String) : Prop :=
  (∀ x ∈ cur, x ≠ "") ∧
    (cur = [] ∨ width (join_words cur) ≤ maxW ∨ ∃ w ∈ S, cur = [w])

end PyLdz

namespace PyLdz

/-! ## Theorems -/

/-- Helper: joining a list headed by a nonempty word yields a nonempty
string. -/
theorem join_words_ne_empty (w : String) (ws : List String) (hw : w ≠ "") :
    join_words (w :: ws) ≠ "" := by
  cases ws with
  | nil => simpa [join_words] using hw
  | cons a as =>
      have hlen : (join_words (w :: a :: as)).length =
          w.length + 1 + (join_words (a :: as)).length := by
        simp [join_words, String.length_append,
          show (" " : String).length = 1 from rfl]
      intro hcontra
      rw [hcontra] at hlen
      simp at hlen
      omega

/-- Helper: a line flushed from a current line satisfying the loop
invariant is a good output line. -/
theorem flush_good (width : String → Int) (maxW : Int) (S : List String)
    (cur : List String) (hinv : curInv width maxW S cur)
    (hne : cur ≠ []) : goodLine width maxW S (join_words cur) := by
  obtain ⟨hnonempty, hdisj⟩ := hinv
  constructor
  · rcases hdisj with rfl | h | ⟨w', hw', rfl⟩
    · exact absurd rfl hne
    · exact Or.inl h
    · rcases le_or_lt (width (join_words [w'])) maxW with hle | hgt
      · exact Or.inl hle
      · exact Or.inr ⟨by simpa [join_words] using hw', hgt⟩
  · cases cur with
    | nil => exact absurd rfl hne
    | cons w ws => exact join_words_ne_empty w ws (hnonempty w (by simp))

/-- Helper: every line `wrap_loop` ever outputs is good, given good
accumulated lines, the invariant on the current line, and nonempty
source words drawn from `S`. -/
theorem wrap_loop_good (width : String → Int) (maxW : Int) (S : List String) :
    ∀ (ws lines cur : List String),
      (∀ w ∈ ws, w ≠ "" ∧ w ∈ S) →
      (∀ l ∈ lines, goodLine width maxW S l) →
      curInv width maxW S cur →
      ∀ l ∈ wrap_loop width maxW ws lines cur, goodLine width maxW S l := by
  intro ws
  induction ws with
  | nil =>
      intro lines cur hws hlines hinv l hl
      rw [wrap_loop] at hl
      rcases List.mem_append.mp hl with h | h
      · exact hlines l h
      · by_cases hc : cur.isEmpty
        · simp [hc] at h
        · simp only [hc, Bool.false_eq_true, if_false, List.mem_singleton] at h
          subst h
          refine flush_good width maxW S cur hinv ?_
          intro hcontra
          subst hcontra
          simp at hc
  | cons w rest ih =>
      intro lines cur hws hlines hinv l hl
      rw [wrap_loop] at hl
      by_cases htest : width (join_words (cur ++ [w])) ≤ maxW
      · simp only [htest, if_pos] at hl
        refine ih lines (cur ++ [w]) (fun x hx => hws x (List.mem_cons_of_mem _ hx))
          hlines ⟨?_, Or.inr (Or.inl htest)⟩ l hl
        intro x hx
        rcases List.mem_append.mp hx with h | h
        · exact hinv.1 x h
        · simp only [List.mem_singleton] at h
          subst h
          exact (hws x (by simp)).1
      · simp only [htest, if_neg, not_false_eq_true, if_false] at hl
        refine ih _ [w] (fun x hx => hws x (List.mem_cons_of_mem _ hx)) ?_ ?_ l hl
        · intro l' hl'
          rcases List.mem_append.mp hl' with h | h
          · exact hlines l' h
          · by_cases hc : cur.isEmpty
            · simp [hc] at h
            · simp only [hc, Bool.false_eq_true, if_false, List.mem_singleton] at h
              subst h
              refine flush_good width maxW S cur hinv ?_
              intro hcontra
              subst hcontra
              simp at hc
        · refine ⟨?_, Or.inr (Or.inr ⟨w, (hws w (by simp)).2, rfl⟩)⟩
          intro x hx
          simp only [List.mem_singleton] at hx
          subst hx
          exact (hws x (by simp)).1

/-- C3: for every detected face box with positive width and height lying
inside a `imgW × imgH` source image, the crop rectangle computed by
`_compute_square_crop` is square, no larger than the source image in
either dimension, and lies entirely within the image bounds. -/
theorem compute_square_crop_square_within_bounds (box : Box) (imgW imgH : Int)
    (hw : 0 < box.w) (hh : 0 < box.h) (hx : 0 ≤ box.x) (hy : 0 ≤ box.y)
    (hxw : box.x + box.w ≤ imgW) (hyh : box.y + box.h ≤ imgH)
    (l t r b : Int) (hc : compute_square_crop box imgW imgH = (l, t, r, b)) :
    r - l = b - t ∧ 0 ≤ r - l ∧ r - l ≤ imgW ∧ b - t ≤ imgH ∧
      0 ≤ l ∧ 0 ≤ t ∧ r ≤ imgW ∧ b ≤ imgH := by
  simp only [compute_square_crop, Box.center, Prod.mk.injEq] at hc
  rw [Int.fdiv_eq_ediv _ (by norm_num), Int.fdiv_eq_ediv _ (by norm_num),
      Int.fdiv_eq_ediv _ (by norm_num)] at hc
  omega

/-- C3 witness: the crop for the face box (80, 20, 40, 60) in a 200×100
image, namely (40, 0, 140, 100), is square, bounded and in-bounds. -/
theorem compute_square_crop_square_within_bounds_witness :
    (140 : Int) - 40 = 100 - 0 ∧ (0 : Int) ≤ 140 - 40 ∧
      (140 : Int) - 40 ≤ 200 ∧ (100 : Int) - 0 ≤ 100 ∧
      (0 : Int) ≤ 40 ∧ (0 : Int) ≤ 0 ∧ (140 : Int) ≤ 200 ∧ (100 : Int) ≤ 100 :=
  compute_square_crop_square_within_bounds ⟨80, 20, 40, 60⟩ 200 100
    (by decide) (by decide) (by decide) (by decide) (by decide) (by decide)
    40 0 140 100 (by decide)

/-- C9: `detect_and_center_square` raises `FaceDetectionError` exactly
when the backend reports zero boxes, more than one box, or a single box
with non-positive width or height; in every other case it returns the
crop of the single box without error. -/
theorem detect_and_center_square_error_iff (faces : List Box) (imgW imgH : Int) :
    ((∃ e, detect_and_center_square faces imgW imgH = .error e) ↔
      (faces = [] ∨ 1 < faces.length ∨
        ∃ b, faces = [b] ∧ (b.w ≤ 0 ∨ b.h ≤ 0))) ∧
    (¬ (faces = [] ∨ 1 < faces.length ∨
        ∃ b, faces = [b] ∧ (b.w ≤ 0 ∨ b.h ≤ 0)) →
      ∃ b, faces = [b] ∧
        detect_and_center_square faces imgW imgH =
          .ok (compute_square_crop b imgW imgH)) := by
  match faces with
  | [] => simp [detect_and_center_square]
  | [b] =>
      by_cases hb : b.w ≤ 0 ∨ b.h ≤ 0
      · simp [detect_and_center_square, hb]
      · simp [detect_and_center_square, hb]
  | b1 :: b2 :: rest =>
      simp [detect_and_center_square]

/-- C9 witness: the characterisation instantiated at a single valid
20×30 box in a 200×100 image. -/
theorem detect_and_center_square_error_iff_witness :
    ((∃ e, detect_and_center_square [⟨10, 10, 20, 30⟩] 200 100 = .error e) ↔
      (([⟨10, 10, 20, 30⟩] : List Box) = [] ∨
        1 < ([⟨10, 10, 20, 30⟩] : List Box).length ∨
        ∃ b, ([⟨10, 10, 20, 30⟩] : List Box) = [b] ∧ (b.w ≤ 0 ∨ b.h ≤ 0))) ∧
    (¬ (([⟨10, 10, 20, 30⟩] : List Box) = [] ∨
        1 < ([⟨10, 10, 20, 30⟩] : List Box).length ∨
        ∃ b, ([⟨10, 10, 20, 30⟩] : List Box) = [b] ∧ (b.w ≤ 0 ∨ b.h ≤ 0)) →
      ∃ b, ([⟨10, 10, 20, 30⟩] : List Box) = [b] ∧
        detect_and_center_square [⟨10, 10, 20, 30⟩] 200 100 =
          .ok (compute_square_crop b 200 100)) :=
  detect_and_center_square_error_iff [⟨10, 10, 20, 30⟩] 200 100

/-- C4: for nonempty text, every line produced by `_wrap_unbounded`
either measures at most `max_w`, or is a single source word (returned
alone, not split) that itself measures more than `max_w`; and no produced
line is empty. -/
theorem wrap_unbounded_lines_fit_or_single_word (width : String → Int)
    (text : String) (maxW : Int) (hne : text ≠ "") :
    ∀ l ∈ wrap_unbounded width text maxW,
      (width l ≤ maxW ∨ (l ∈ py_split text ∧ maxW < width l)) ∧ l ≠ "" := by
  intro l hl
  exact wrap_loop_good width maxW (py_split text) (py_split text) [] []
    (fun w hw => ⟨by simpa using (List.mem_filter.mp hw).2, hw⟩)
    (by simp) ⟨by simp, Or.inl rfl⟩ l hl

/-- C4 witness: wrapping `"a b"` at width 1 under the string-length
measure produces the line `"a"`, which fits and is nonempty. -/
theorem wrap_unbounded_lines_fit_or_single_word_witness :
    ((fun s => (s.length : Int)) "a" ≤ 1 ∨
      ("a" ∈ py_split "a b" ∧ 1 < (fun s => (s.length : Int)) "a")) ∧
      ("a" : String) ≠ "" :=
  wrap_unbounded_lines_fit_or_single_word (fun s => (s.length : Int)) "a b" 1
    (by decide) "a" (by decide)

/-- C5: `_autoscale_font` returns a font size at which the text renders
within `max_width`, or the floor size 40 when no checked size — from
`start` descending in steps of 2, not going below 40 — fits. -/
theorem autoscale_font_fits_or_floor (width : Int → Int) (start maxW : Int) :
    width (autoscale_font width start maxW) ≤ maxW ∨
      (autoscale_font width start maxW = 40 ∧
        ∀ s : Int, 40 ≤ s → s ≤ start → (start - s) % 2 = 0 → maxW < width s) := by
  induction start, maxW using autoscale_font.induct width with
  | case1 start maxW h hfit =>
      rw [autoscale_font, if_pos h, if_pos hfit]
      exact Or.inl hfit
  | case2 start maxW h hfit ih =>
      rw [autoscale_font, if_pos h, if_neg hfit]
      rcases ih with hl | ⟨h40, hall⟩
      · exact Or.inl hl
      · refine Or.inr ⟨h40, fun s hs1 hs2 hs3 => ?_⟩
        rcases eq_or_lt_of_le hs2 with rfl | hlt
        · omega
        · exact hall s hs1 (by omega) (by omega)
  | case3 start maxW h =>
      rw [autoscale_font, if_neg h]
      refine Or.inr ⟨rfl, fun s hs1 hs2 hs3 => ?_⟩
      omega

/-- C5 witness: the characterisation instantiated at a measure that never
fits, start size 44 and limit 0: the floor 40 is returned and every
checked size (44, 42, 40) indeed overflows. -/
theorem autoscale_font_fits_or_floor_witness :
    (fun _ : Int => (100 : Int)) (autoscale_font (fun _ => 100) 44 0) ≤ 0 ∨
      (autoscale_font (fun _ => 100) 44 0 = 40 ∧
        ∀ s : Int, 40 ≤ s → s ≤ 44 → (44 - s) % 2 = 0 →
          0 < (fun _ : Int => (100 : Int)) s) :=
  autoscale_font_fits_or_floor (fun _ => 100) 44 0

/-- C10: called with a start size strictly below the hard floor 40, the
size-decreasing loop of `_autoscale_font` never runs: the returned font
has size 40 — strictly larger than the requested start — and the result
does not depend on the width measure at all (the text is never
measured). -/
theorem autoscale_font_below_floor (width : Int → Int) (start maxW : Int)
    (h : start < 40) :
    autoscale_font width start maxW = 40 ∧
      start < autoscale_font width start maxW ∧
      ∀ width2 : Int → Int,
        autoscale_font width2 start maxW = autoscale_font width start maxW := by
  have heq : ∀ w2 : Int → Int, autoscale_font w2 start maxW = 40 := by
    intro w2
    rw [autoscale_font, if_neg (by omega)]
  refine ⟨heq width, ?_, fun w2 => (heq w2).trans (heq width).symm⟩
  rw [heq width]
  omega

/-- C10 witness: at start size 30 (below the floor), the font returned is
of size 40 regardless of the width measure. -/
theorem autoscale_font_below_floor_witness :
    autoscale_font (fun _ => 0) 30 5 = 40 ∧
      (30 : Int) < autoscale_font (fun _ => 0) 30 5 ∧
      ∀ width2 : Int → Int,
        autoscale_font width2 30 5 = autoscale_font (fun _ => 0) 30 5 :=
  autoscale_font_below_floor (fun _ => 0) 30 5 (by decide)

/-- Helper: a freshly written cache file is found under its name. -/
theorem getFile_setFile_same (st : Cache) (n : String) (i : Img) :
    getFile (setFile st n i) n = some i := by
  simp [getFile, setFile, List.lookup]

/-- Helper: writing one cache file leaves every other name unchanged. -/
theorem getFile_setFile_ne (st : Cache) (n m : String) (i : Img) (h : m ≠ n) :
    getFile (setFile st n i) m = getFile st m := by
  have hb : (m == n) = false := beq_eq_false_iff_ne.mpr h
  simp [getFile, setFile, List.lookup, hb]

/-- Helper: the processed cache file name `{id}.png` differs from the raw
cache file name `{id}_original.png` (the suffixes have lengths 4 and 13). -/
theorem processedName_ne_rawName (id : String) :
    processedName id ≠ rawName id := by
  intro h
  have hlen := congrArg String.length h
  simp [processedName, rawName, String.length_append,
    show (".png" : String).length = 4 from rfl,
    show ("_original.png" : String).length = 13 from rfl] at hlen

/-- C2: when the processed cache is absent and face detection raises
`FaceDetectionError` on the source image (`fc source = none`), `_avatar`
still returns the unmodified source resized to exactly the requested
target size, persists the unmodified source as the processed cache, and —
being a total function of its inputs here — propagates no error. -/
theorem avatar_face_detection_fallback (fc : Img → Option Img) (sp : Speaker)
    (w h : Nat) (st : Cache) (source : Img)
    (hproc : getFile st (processedName sp.id) = none)
    (hsrc : source = (getFile st (rawName sp.id)).getD (Img.decoded sp.avatar.content))
    (hfc : fc source = none) :
    ∃ st', avatar fc sp w h st = (source.resize w h, st') ∧
      getFile st' (processedName sp.id) = some source ∧
      (source.resize w h).size = some (w, h) := by
  cases hraw : getFile st (rawName sp.id) with
  | none =>
      rw [hraw] at hsrc
      simp only [Option.getD_none] at hsrc
      subst hsrc
      have hav : avatar fc sp w h st =
          ((Img.decoded sp.avatar.content).resize w h,
            setFile (setFile st (rawName sp.id) (Img.decoded sp.avatar.content))
              (processedName sp.id) (Img.decoded sp.avatar.content)) := by
        simp only [avatar, hproc, hraw, hfc]
      exact ⟨_, hav, getFile_setFile_same _ _ _, rfl⟩
  | some o =>
      rw [hraw] at hsrc
      simp only [Option.getD_some] at hsrc
      subst hsrc
      have hav : avatar fc sp w h st =
          (source.resize w h, setFile st (processedName sp.id) source) := by
        simp only [avatar, hproc, hraw, hfc]
      exact ⟨_, hav, getFile_setFile_same _ _ _, rfl⟩

/-- C2 witness: for a concrete speaker with an empty cache and an
always-failing detector, the fallback contract instantiated and
discharged by evaluation. -/
theorem avatar_face_detection_fallback_witness :
    ∃ st', avatar (fun _ => none) ⟨"ada", "Ada", ⟨"ada.png", [7]⟩⟩ 300 300 [] =
        ((Img.decoded [7]).resize 300 300, st') ∧
      getFile st' (processedName "ada") = some (Img.decoded [7]) ∧
      ((Img.decoded [7]).resize 300 300).size = some (300, 300) :=
  avatar_face_detection_fallback (fun _ => none) ⟨"ada", "Ada", ⟨"ada.png", [7]⟩⟩
    300 300 [] (Img.decoded [7]) rfl rfl rfl

/-- C7 counterexample: the claim's raw-cache file name uses the avatar's
own extension (`{id}_original.{ext}`), but for a speaker `"jan"` whose
avatar file is `"photo.jpg"` a first call on an empty cache creates no
file named `"jan_original.jpg"`; the file actually written is
`jan_original.png` (the fixed `.png` name hard-coded in `_avatar`). -/
theorem raw_cache_name_counterexample :
    spec_raw_cache_name ⟨"jan", "Jan Kowalski", ⟨"photo.jpg", [1, 2, 3]⟩⟩ =
        "jan_original.jpg" ∧
      getFile (avatar (fun _ => none)
          ⟨"jan", "Jan Kowalski", ⟨"photo.jpg", [1, 2, 3]⟩⟩ 300 300 []).2
        "jan_original.jpg" = none ∧
      getFile (avatar (fun _ => none)
          ⟨"jan", "Jan Kowalski", ⟨"photo.jpg", [1, 2, 3]⟩⟩ 300 300 []).2
        (rawName "jan") = some (Img.decoded [1, 2, 3]) :=
  ⟨rfl, rfl, rfl⟩

/-- C7 (amended): on the first avatar request for a speaker (neither
cache file present) the raw-original cache file is written under the
fixed name `{id}_original.png` — regardless of the avatar's original
extension — holding the image decoded from `speaker.avatar`'s bytes and
saved as PNG; and once a raw-original file exists it is never
overwritten by any later call. -/
theorem raw_cache_write_once (fc : Img → Option Img) (sp : Speaker)
    (w h : Nat) (st : Cache) :
    (getFile st (processedName sp.id) = none →
      getFile st (rawName sp.id) = none →
      getFile (avatar fc sp w h st).2 (rawName sp.id) =
        some (Img.decoded sp.avatar.content)) ∧
    (∀ b, getFile st (rawName sp.id) = some b →
      getFile (avatar fc sp w h st).2 (rawName sp.id) = some b) := by
  constructor
  · intro hproc hraw
    cases hfc : fc (Img.decoded sp.avatar.content) with
    | none =>
        have hav : (avatar fc sp w h st).2 =
            setFile (setFile st (rawName sp.id) (Img.decoded sp.avatar.content))
              (processedName sp.id) (Img.decoded sp.avatar.content) := by
          simp only [avatar, hproc, hraw, hfc]
        rw [hav, getFile_setFile_ne _ _ _ _ (processedName_ne_rawName sp.id).symm]
        exact getFile_setFile_same _ _ _
    | some c =>
        have hav : (avatar fc sp w h st).2 =
            setFile (setFile st (rawName sp.id) (Img.decoded sp.avatar.content))
              (processedName sp.id) c := by
          simp only [avatar, hproc, hraw, hfc]
        rw [hav, getFile_setFile_ne _ _ _ _ (processedName_ne_rawName sp.id).symm]
        exact getFile_setFile_same _ _ _
  · intro b hrawb
    cases hproc : getFile st (processedName sp.id) with
    | some i =>
        have hav : (avatar fc sp w h st).2 = st := by
          simp only [avatar, hproc]
        rw [hav]
        exact hrawb
    | none =>
        cases hfc : fc b with
        | none =>
            have hav : (avatar fc sp w h st).2 =
                setFile st (processedName sp.id) b := by
              simp only [avatar, hproc, hrawb, hfc]
            rw [hav, getFile_setFile_ne _ _ _ _ (processedName_ne_rawName sp.id).symm]
            exact hrawb
        | some c =>
            have hav : (avatar fc sp w h st).2 =
                setFile st (processedName sp.id) c := by
              simp only [avatar, hproc, hrawb, hfc]
            rw [hav, getFile_setFile_ne _ _ _ _ (processedName_ne_rawName sp.id).symm]
            exact hrawb

/-- C7 (amended) witness: on an empty cache, a first call for speaker
`"ada"` leaves `Img.decoded [7]` stored under `ada_original.png`. -/
theorem raw_cache_write_once_witness :
    getFile (avatar (fun _ => none) ⟨"ada", "Ada", ⟨"ada.png", [7]⟩⟩
        300 300 []).2 (rawName "ada") = some (Img.decoded [7]) :=
  (raw_cache_write_once (fun _ => none) ⟨"ada", "Ada", ⟨"ada.png", [7]⟩⟩
    300 300 []).1 rfl rfl

/-- Helper: if some speaker in the list carries the wanted id,
`_find_speaker` succeeds. -/
theorem find_speaker_of_mem (speakers : List Speaker) (sid : String)
    (h : ∃ s ∈ speakers, s.id = sid) :
    ∃ sp, find_speaker speakers sid = some sp := by
  obtain ⟨s, hs, hid⟩ := h
  have hsome : (speakers.find? (fun s => s.id == sid)).isSome :=
    List.find?_isSome.mpr ⟨s, hs, by simp [hid]⟩
  exact Option.isSome_iff_exists.mp hsome

/-- C1: with 0, 1 or 2 talks whose speakers all appear in the speaker
list, `generate_featured_image` succeeds and the canvas written has the
preset pixel dimensions of the aspect tag (1920×1080 for `"16x9"`,
1080×1350 for `"4x5"`, 1080×1080 for `"1x1"`); with 3 or more talks it
raises `ImageGenerationError` (`Unsupported number of talks`). -/
theorem generate_featured_image_talk_count (fc : Img → Option Img)
    (meetup : Meetup) (speakers : List Speaker) (aspect : String) (st : Cache) :
    ((meetup.talks.length ≤ 2 ∧
        ∀ t ∈ meetup.talks, ∃ s ∈ speakers, s.id = t.speaker_id) →
      ∃ img st',
        generate_featured_image fc meetup speakers aspect st = .ok (img, st') ∧
        img.size = some (canvas_size aspect) ∧
        (aspect = "16x9" → img.size = some (1920, 1080)) ∧
        (aspect = "4x5" → img.size = some (1080, 1350)) ∧
        (aspect = "1x1" → img.size = some (1080, 1080))) ∧
    (3 ≤ meetup.talks.length →
      generate_featured_image fc meetup speakers aspect st =
        .error (image_generation_error meetup.meetup_id .unsupportedTalks)) := by
  constructor
  · rintro ⟨hcount, hfound⟩
    rcases hm : meetup.talks with _ | ⟨t1, _ | ⟨t2, _ | ⟨t3, rest⟩⟩⟩
    · refine ⟨Img.canvas (canvas_size aspect).1 (canvas_size aspect).2 [], st,
        ?_, ?_, ?_, ?_, ?_⟩
      · simp only [generate_featured_image, hm]
      · simp [Img.size]
      · rintro rfl; rfl
      · rintro rfl; rfl
      · rintro rfl; rfl
    · obtain ⟨sp1, hsp1⟩ := find_speaker_of_mem speakers t1.speaker_id
        (hfound t1 (by rw [hm]; simp))
      refine ⟨Img.canvas (canvas_size aspect).1 (canvas_size aspect).2
          [(avatar fc sp1 (preset_single_avatar aspect)
              (preset_single_avatar aspect) st).1],
        (avatar fc sp1 (preset_single_avatar aspect)
          (preset_single_avatar aspect) st).2, ?_, ?_, ?_, ?_, ?_⟩
      · simp only [generate_featured_image, hm, hsp1]
      · simp [Img.size]
      · rintro rfl; rfl
      · rintro rfl; rfl
      · rintro rfl; rfl
    · obtain ⟨sp1, hsp1⟩ := find_speaker_of_mem speakers t1.speaker_id
        (hfound t1 (by rw [hm]; simp))
      obtain ⟨sp2, hsp2⟩ := find_speaker_of_mem speakers t2.speaker_id
        (hfound t2 (by rw [hm]; simp))
      refine ⟨Img.canvas (canvas_size aspect).1 (canvas_size aspect).2
          [(avatar fc sp1 (preset_duo_avatar aspect)
              (preset_duo_avatar aspect) st).1,
            (avatar fc sp2 (preset_duo_avatar aspect) (preset_duo_avatar aspect)
              (avatar fc sp1 (preset_duo_avatar aspect)
                (preset_duo_avatar aspect) st).2).1],
        (avatar fc sp2 (preset_duo_avatar aspect) (preset_duo_avatar aspect)
          (avatar fc sp1 (preset_duo_avatar aspect)
            (preset_duo_avatar aspect) st).2).2, ?_, ?_, ?_, ?_, ?_⟩
      · simp only [generate_featured_image, hm, hsp1, hsp2]
      · simp [Img.size]
      · rintro rfl; rfl
      · rintro rfl; rfl
      · rintro rfl; rfl
    · rw [hm] at hcount
      simp at hcount
  · intro h3
    rcases hm : meetup.talks with _ | ⟨t1, _ | ⟨t2, _ | ⟨t3, rest⟩⟩⟩
    · rw [hm] at h3; simp at h3
    · rw [hm] at h3; simp at h3
    · rw [hm] at h3; simp at h3
    · simp only [generate_featured_image, hm]

/-- C1 witness: a meetup with three talks and id `"58"` on aspect
`"16x9"` is rejected with the wrapped `Unsupported number of talks`
error. -/
theorem generate_featured_image_talk_count_witness :
    generate_featured_image (fun _ => none)
        ⟨"58", [⟨"a", "T1"⟩, ⟨"b", "T2"⟩, ⟨"c", "T3"⟩]⟩ [] "16x9" [] =
      .error (image_generation_error "58" .unsupportedTalks) :=
  (generate_featured_image_talk_count (fun _ => none)
      ⟨"58", [⟨"a", "T1"⟩, ⟨"b", "T2"⟩, ⟨"c", "T3"⟩]⟩ [] "16x9" []).2
    (by decide)

/-- C6: when the speaker list has no speaker whose id matches some
talk's `speaker_id`, the call fails with an `ImageGenerationError`
message that carries the meetup's identifier, and no image is produced
(the result is `.error`, not a placeholder rendering). -/
theorem generate_featured_image_missing_speaker_error (fc : Img → Option Img)
    (meetup : Meetup) (speakers : List Speaker) (aspect : String) (st : Cache)
    (h : ∃ t ∈ meetup.talks, ∀ s ∈ speakers, s.id ≠ t.speaker_id) :
    ∃ e : PyException,
      generate_featured_image fc meetup speakers aspect st =
        .error (image_generation_error meetup.meetup_id e) := by
  obtain ⟨t, ht, hmiss⟩ := h
  have hnone : find_speaker speakers t.speaker_id = none :=
    List.find?_eq_none.mpr (fun s hs => by simp [hmiss s hs])
  rcases hm : meetup.talks with _ | ⟨t1, _ | ⟨t2, _ | ⟨t3, rest⟩⟩⟩
  · rw [hm] at ht; simp at ht
  · rw [hm] at ht
    simp only [List.mem_singleton] at ht
    subst ht
    exact ⟨.stopIteration, by simp only [generate_featured_image, hm, hnone]⟩
  · rw [hm] at ht
    simp only [List.mem_cons, List.mem_singleton, List.not_mem_nil, or_false] at ht
    rcases ht with rfl | rfl
    · exact ⟨.stopIteration, by simp only [generate_featured_image, hm, hnone]⟩
    · cases hf1 : find_speaker speakers t1.speaker_id with
      | none =>
          exact ⟨.stopIteration, by simp only [generate_featured_image, hm, hf1]⟩
      | some sp1 =>
          exact ⟨.stopIteration,
            by simp only [generate_featured_image, hm, hf1, hnone]⟩
  · exact ⟨.unsupportedTalks, by simp only [generate_featured_image, hm]⟩

/-- C6 witness: the spec's concrete scenario — meetup `"58"` with two
talks but the second talk's speaker (`"bob"`) absent from the speaker
list fails with an error message referencing `"58"`. -/
theorem generate_featured_image_missing_speaker_error_witness :
    ∃ e : PyException,
      generate_featured_image (fun _ => none)
          ⟨"58", [⟨"ann", "T1"⟩, ⟨"bob", "T2"⟩]⟩
          [⟨"ann", "Ann", ⟨"a.png", []⟩⟩] "16x9" [] =
        .error (image_generation_error "58" e) :=
  generate_featured_image_missing_speaker_error (fun _ => none)
    ⟨"58", [⟨"ann", "T1"⟩, ⟨"bob", "T2"⟩]⟩ [⟨"ann", "Ann", ⟨"a.png", []⟩⟩]
    "16x9" [] (by decide)

/-- C8: with at most two talks, every talk's speaker present, and the
processed avatar cache already populated for each referenced speaker,
generating the image leaves the cache untouched and a second identical
call — run on the state the first one left — produces the identical
output canvas; with the deterministic PNG encoder this is byte-identical
output. -/
theorem generate_twice_warm_cache (fc : Img → Option Img) (meetup : Meetup)
    (speakers : List Speaker) (aspect : String) (st : Cache)
    (hcount : meetup.talks.length ≤ 2)
    (hwarm : ∀ t ∈ meetup.talks, ∃ sp i,
        find_speaker speakers t.speaker_id = some sp ∧
        getFile st (processedName sp.id) = some i) :
    ∃ out : Img, generate_twice fc meetup speakers aspect st = some (out, out) := by
  rcases hm : meetup.talks with _ | ⟨t1, _ | ⟨t2, _ | ⟨t3, rest⟩⟩⟩
  · exact ⟨Img.canvas (canvas_size aspect).1 (canvas_size aspect).2 [],
      by simp only [generate_twice, generate_featured_image, hm]⟩
  · obtain ⟨sp1, i1, hf1, hp1⟩ := hwarm t1 (by rw [hm]; simp)
    have hav1 : avatar fc sp1 (preset_single_avatar aspect)
        (preset_single_avatar aspect) st =
        (i1.resize (preset_single_avatar aspect) (preset_single_avatar aspect),
          st) := by
      simp only [avatar, hp1]
    exact ⟨Img.canvas (canvas_size aspect).1 (canvas_size aspect).2
        [i1.resize (preset_single_avatar aspect) (preset_single_avatar aspect)],
      by simp only [generate_twice, generate_featured_image, hm, hf1, hav1]⟩
  · obtain ⟨sp1, i1, hf1, hp1⟩ := hwarm t1 (by rw [hm]; simp)
    obtain ⟨sp2, i2, hf2, hp2⟩ := hwarm t2 (by rw [hm]; simp)
    have hav1 : avatar fc sp1 (preset_duo_avatar aspect)
        (preset_duo_avatar aspect) st =
        (i1.resize (preset_duo_avatar aspect) (preset_duo_avatar aspect), st) := by
      simp only [avatar, hp1]
    have hav2 : avatar fc sp2 (preset_duo_avatar aspect)
        (preset_duo_avatar aspect) st =
        (i2.resize (preset_duo_avatar aspect) (preset_duo_avatar aspect), st) := by
      simp only [avatar, hp2]
    exact ⟨Img.canvas (canvas_size aspect).1 (canvas_size aspect).2
        [i1.resize (preset_duo_avatar aspect) (preset_duo_avatar aspect),
          i2.resize (preset_duo_avatar aspect) (preset_duo_avatar aspect)],
      by
        simp only [generate_twice, generate_featured_image, hm, hf1, hf2, hav1,
          hav2]⟩
  · rw [hm] at hcount
    simp at hcount

/-- C8 witness: a one-talk meetup whose speaker's processed avatar is
already cached generates the same canvas twice in a row. -/
theorem generate_twice_warm_cache_witness :
    ∃ out : Img, generate_twice (fun _ => none) ⟨"42", [⟨"ann", "T"⟩]⟩
        [⟨"ann", "Ann", ⟨"a.png", []⟩⟩] "16x9"
        [("ann.png", Img.decoded [5])] = some (out, out) :=
  generate_twice_warm_cache (fun _ => none) ⟨"42", [⟨"ann", "T"⟩]⟩
    [⟨"ann", "Ann", ⟨"a.png", []⟩⟩] "16x9" [("ann.png", Img.decoded [5])]
    (by decide)
    (by
      intro t ht
      simp only [List.mem_singleton] at ht
      subst ht
      exact ⟨⟨"ann", "Ann", ⟨"a.png", []⟩⟩, Img.decoded [5], rfl, rfl⟩)

end PyLdz
